import Mathlib

/-
Verification of the aquarium telemetry server (main.py) against its
natural-language specification.  The server code is embedded shallowly:
Python floats are modelled as rationals, Python int() truncation and
round(x, 1) rounding are modelled explicitly, and every function below is
translated from the corresponding block of main.py (line references in the
doc comments).  Definitions whose name ends in -spec are instead written
from the specification text, for comparison with the source translation.
-/

namespace Akvarko

/-- Python int() truncation toward zero, on rationals. -/
def pyint (q : ℚ) : ℤ := if 0 ≤ q then ⌊q⌋ else ⌈q⌉

/-- Python round() on a rational producing an integer: round half to even. -/
def round_half_even (q : ℚ) : ℤ :=
  if q - ⌊q⌋ < 1/2 then ⌊q⌋
  else if 1/2 < q - ⌊q⌋ then ⌊q⌋ + 1
  else if ⌊q⌋ % 2 = 0 then ⌊q⌋ else ⌊q⌋ + 1

/-- Python round(x, 1): round to one decimal place. -/
def pyRound1 (q : ℚ) : ℚ := (round_half_even (q * 10) : ℚ) / 10

theorem floor_le_round_half_even (q : ℚ) : ⌊q⌋ ≤ round_half_even q := by
  unfold round_half_even
  split_ifs <;> omega

theorem round_half_even_le (q : ℚ) (n : ℤ) (h : q ≤ n) : round_half_even q ≤ n := by
  have hf : ⌊q⌋ ≤ n := by
    have := Int.floor_le_floor h
    simpa using this
  have hstep : q - ⌊q⌋ ≠ 0 → ⌊q⌋ + 1 ≤ n := by
    intro hne
    rcases lt_or_eq_of_le hf with h' | h'
    · omega
    · exfalso
      apply hne
      have h1 : (n : ℚ) ≤ q := by
        rw [← h']
        exact Int.floor_le q
      have hq : q = (⌊q⌋ : ℚ) := le_antisymm (by rw [h']; exact h) (by rw [h']; exact h1)
      rw [hq]
      simp
  unfold round_half_even
  split_ifs with h1 h2 h3
  · exact hf
  · exact hstep (by intro h0; rw [h0] at h2; norm_num at h2)
  · exact hf
  · exact hstep (by
      intro h0
      have : ¬ (q - ⌊q⌋ < 1/2) := h1
      rw [h0] at this
      norm_num at this)

theorem le_round_half_even (q : ℚ) (n : ℤ) (h : (n : ℚ) ≤ q) : n ≤ round_half_even q := by
  have : n ≤ ⌊q⌋ := Int.le_floor.mpr h
  exact le_trans this (floor_le_round_half_even q)

theorem pyRound1_nonneg (q : ℚ) (h : 0 ≤ q) : 0 ≤ pyRound1 q := by
  unfold pyRound1
  have h0 : (0 : ℤ) ≤ round_half_even (q * 10) :=
    le_round_half_even _ 0 (by push_cast; linarith)
  have : (0 : ℚ) ≤ (round_half_even (q * 10) : ℚ) := by exact_mod_cast h0
  linarith

theorem pyRound1_le (q : ℚ) (n : ℤ) (h : q ≤ n) : pyRound1 q ≤ n := by
  unfold pyRound1
  have h0 : round_half_even (q * 10) ≤ 10 * n :=
    round_half_even_le _ (10 * n) (by push_cast; linarith)
  have : (round_half_even (q * 10) : ℚ) ≤ 10 * n := by exact_mod_cast h0
  linarith

/-- Commutation of Python truncation with clamping to an integer interval. -/
theorem pyint_clamp (q : ℚ) : max 0 (min 100 (pyint q)) = pyint (max 0 (min 100 q)) := by
  unfold pyint
  rcases le_or_lt 0 q with h | h
  · rcases le_or_lt q 100 with h1 | h1
    · rw [min_eq_right h1, max_eq_right h]
      rw [if_pos h]
      have hfl : ⌊q⌋ ≤ 100 := by
        have := Int.floor_le_floor h1
        simpa using this
      have hf0 : (0 : ℤ) ≤ ⌊q⌋ := Int.floor_nonneg.mpr h
      rw [min_eq_right hfl, max_eq_right hf0]
    · have hmin : min (100 : ℚ) q = 100 := min_eq_left h1.le
      rw [hmin]
      have hmax : max (0 : ℚ) 100 = 100 := by norm_num
      rw [hmax, if_pos h]
      have hfl : (100 : ℤ) ≤ ⌊q⌋ := Int.le_floor.mpr (by exact_mod_cast h1.le)
      rw [min_eq_left hfl]
      norm_num
  · have hq : q ≤ 0 := h.le
    rw [if_neg (not_le.mpr h)]
    have hc : ⌈q⌉ ≤ 0 := Int.ceil_le.mpr (by exact_mod_cast hq)
    have hmin : min (100 : ℚ) q = q := min_eq_right (by linarith)
    rw [hmin, max_eq_left hq]
    have hminz : min (100 : ℤ) ⌈q⌉ = ⌈q⌉ := min_eq_right (by omega)
    rw [hminz, max_eq_left hc]
    norm_num

/-! Water-quality limits and thermostat constants, main.py lines 117 to 129. -/

def PH_MIN : ℚ := 6
def PH_MAX : ℚ := 41/5
def TURBIDITY_LIMIT : ℤ := 30
def TDS_LIMIT : ℤ := 500
def WATER_LEVEL_MIN : ℚ := 40
def HYSTERESIS : ℚ := 1/2
def ALARM_TOLERANCE : ℚ := 3/2

/-! Unit conversions from the ingest handler receive_data, main.py lines 466 to 514. -/

/-- pH conversion, main.py lines 474 to 480: linear map from the 12-bit code,
rounded to one decimal place. -/
def ph_conv (raw : ℚ) : ℚ := pyRound1 (14 - raw / 4095 * 14)

/-- TDS conversion, main.py lines 485 to 495: voltage, cubic polynomial,
truncation, clamp to 0..1000.  No temperature term appears in the source. -/
def tds_conv (raw : ℚ) : ℤ :=
  let voltage_tds := raw / 4095 * (33/10)
  let t := if voltage_tds < 1/100 then 0
           else pyint (13342/100 * voltage_tds ^ 3 - 25586/100 * voltage_tds ^ 2
                       + 85739/100 * voltage_tds)
  max 0 (min 1000 t)

/-- Turbidity conversion, main.py lines 499 to 513: three-segment piecewise
map from voltage to NTU, clamp to 0..500. -/
def turb_conv (raw : ℚ) : ℤ :=
  let voltage_turb := raw / 4095 * (33/10)
  let n := if 3 ≤ voltage_turb then pyint ((33/10 - voltage_turb) * 33)
           else if 2 ≤ voltage_turb then pyint (10 + (3 - voltage_turb) * 90)
           else pyint (100 + (2 - voltage_turb) * 200)
  max 0 (min 500 n)

/-- The ingest request body fields used by the conversions, with the defaults
of main.py lines 467, 474, 485, 499, 533. -/
structure Payload where
  temp : ℚ := -127
  ph : ℚ := 0
  tds : ℚ := 0
  turbidity : ℚ := 0
  water_level : ℚ := 0
deriving DecidableEq

/-- The calibrated fields of current_data that the evaluators read. -/
structure SampleData where
  temp : ℚ
  ph : ℚ
  turbidity : ℤ
  tds : ℤ
  water_level : ℚ
  target_temp : ℚ
deriving DecidableEq

/-- The calibrated sample stored by receive_data, main.py lines 466 to 541:
temperature rounded unless it is the -127 sentinel, converted ph, turbidity
and tds, and water_level taken from the payload as is (line 533). -/
def ingestSample (p : Payload) (target_temp : ℚ) : SampleData :=
  { temp := if p.temp ≠ -127 then pyRound1 p.temp else -127
    ph := ph_conv p.ph
    turbidity := turb_conv p.turbidity
    tds := tds_conv p.tds
    water_level := p.water_level
    target_temp := target_temp }

/-- The thermostat block of receive_data, main.py lines 516 to 526: with a
non-sentinel temperature the heater command becomes (temp < target); with the
sentinel it is left unchanged. -/
def thermostat (heater_cmd : Bool) (temp target : ℚ) : Bool :=
  if temp ≠ -127 then (if temp < target then true else false) else heater_cmd

/-- The alert booleans produced by check_health, main.py lines 366 to 373. -/
structure Alerts where
  temp_alert : Bool
  ph_alert : Bool
  turbidity_alert : Bool
  tds_alert : Bool
  water_level_alert : Bool
  global_alert : Bool
deriving DecidableEq

/-- Health evaluator, main.py lines 355 to 374. -/
def check_health (d : SampleData) : Alerts :=
  let temp_is_bad :=
    if d.temp ≠ -127 then
      decide (d.temp < d.target_temp - ALARM_TOLERANCE) ||
      decide (d.target_temp + ALARM_TOLERANCE < d.temp)
    else true
  let ph_a := !(decide (PH_MIN ≤ d.ph ∧ d.ph ≤ PH_MAX))
  let tu_a := decide (TURBIDITY_LIMIT < d.turbidity)
  let td_a := decide (TDS_LIMIT < d.tds)
  let wl_a := decide (d.water_level < WATER_LEVEL_MIN)
  { temp_alert := temp_is_bad
    ph_alert := ph_a
    turbidity_alert := tu_a
    tds_alert := td_a
    water_level_alert := wl_a
    global_alert := temp_is_bad || ph_a || tu_a || td_a || wl_a }

/-- Identity of an advisor recommendation; the Czech message text of main.py
is abstracted to the condition that produced it. -/
inductive AdviceKind where
  | tds_high
  | turbidity_high
  | ph_low
  | ph_high
  | temp_low
  | temp_high
  | water_low
  | all_ok
deriving DecidableEq

/-- The severity tag stored in the "type" key of an emitted advisor dict. -/
inductive Severity where
  | ok
  | warning
  | danger
deriving DecidableEq

/-- One advisor entry: which condition fired and its severity tag. -/
structure AdviceEntry where
  kind : AdviceKind
  severity : Severity
deriving DecidableEq

/-- One conditional advice_list.append statement of generate_advice. -/
def advice_step (advice_list : List AdviceEntry) (c : Prop) [Decidable c]
    (e : AdviceEntry) : List AdviceEntry :=
  if c then advice_list ++ [e] else advice_list

/-- Smart advisor, main.py lines 169 to 238: the list is built by appending
one entry per condition that holds, in source order, with a single ok entry
when the list stayed empty. -/
def generate_advice (d : SampleData) (volume : ℤ) : List AdviceEntry :=
  let advice_list : List AdviceEntry := []
  let advice_list := advice_step advice_list (TDS_LIMIT < d.tds)
    ⟨AdviceKind.tds_high, Severity.danger⟩
  let advice_list := advice_step advice_list (TURBIDITY_LIMIT < d.turbidity)
    ⟨AdviceKind.turbidity_high, Severity.warning⟩
  let advice_list := advice_step advice_list (d.ph < PH_MIN ∧ 0 < d.ph)
    ⟨AdviceKind.ph_low, Severity.warning⟩
  let advice_list := advice_step advice_list (PH_MAX < d.ph)
    ⟨AdviceKind.ph_high, Severity.warning⟩
  let advice_list := advice_step advice_list (d.temp ≠ -127 ∧ d.temp < d.target_temp - 1)
    ⟨AdviceKind.temp_low, Severity.warning⟩
  let advice_list := advice_step advice_list (d.temp ≠ -127 ∧ d.target_temp + 2 < d.temp)
    ⟨AdviceKind.temp_high, Severity.warning⟩
  let advice_list := advice_step advice_list (d.water_level < WATER_LEVEL_MIN)
    ⟨AdviceKind.water_low, Severity.warning⟩
  if advice_list.length = 0 then advice_list ++ [⟨AdviceKind.all_ok, Severity.ok⟩]
  else advice_list

/-- The advisor as the specification words it: a concatenation of one
optional entry per condition, in the stated priority order, with exactly one
ok entry when none triggers.  Written from the claim text for comparison
with generate_advice. -/
def advice_spec (d : SampleData) (volume : ℤ) : List AdviceEntry :=
  let l :=
    (if TDS_LIMIT < d.tds then [⟨AdviceKind.tds_high, Severity.danger⟩] else []) ++
    (if TURBIDITY_LIMIT < d.turbidity then [⟨AdviceKind.turbidity_high, Severity.warning⟩] else []) ++
    (if d.ph < PH_MIN ∧ 0 < d.ph then [⟨AdviceKind.ph_low, Severity.warning⟩] else []) ++
    (if PH_MAX < d.ph then [⟨AdviceKind.ph_high, Severity.warning⟩] else []) ++
    (if d.temp ≠ -127 ∧ d.temp < d.target_temp - 1 then [⟨AdviceKind.temp_low, Severity.warning⟩] else []) ++
    (if d.temp ≠ -127 ∧ d.target_temp + 2 < d.temp then [⟨AdviceKind.temp_high, Severity.warning⟩] else []) ++
    (if d.water_level < WATER_LEVEL_MIN then [⟨AdviceKind.water_low, Severity.warning⟩] else [])
  if l = [] then [⟨AdviceKind.all_ok, Severity.ok⟩] else l

/-- One conditional score subtraction statement of calculate_wqi. -/
def score_sub (score : ℚ) (c : Prop) [Decidable c] (p : ℚ) : ℚ :=
  if c then score - p else score

/-- One if/elif score subtraction statement of calculate_wqi. -/
def score_sub2 (score : ℚ) (c1 : Prop) [Decidable c1] (p1 : ℚ)
    (c2 : Prop) [Decidable c2] (p2 : ℚ) : ℚ :=
  if c1 then score - p1 else if c2 then score - p2 else score

/-- The temperature block of calculate_wqi, skipped for the sentinel. -/
def temp_score (score : ℚ) (connected : Prop) [Decidable connected] (dev : ℚ) : ℚ :=
  if connected then
    (if 2 < dev then score - 15 else if 1 < dev then score - 5 else score)
  else score

/-- Water Quality Index, main.py lines 241 to 281: sequential penalties
subtracted from 100, then int() truncation and clamping to 0..100. -/
def calculate_wqi (d : SampleData) : ℤ :=
  let score : ℚ := 100
  let score := score_sub score (0 < d.ph) (min (|d.ph - 7| * 15) 30)
  let score := score_sub2 score (500 < d.tds) 30
    (300 < d.tds) (((d.tds : ℚ) - 300) / 200 * 20)
  let score := score_sub2 score (30 < d.turbidity) 25
    (10 < d.turbidity) (((d.turbidity : ℚ) - 10) / 20 * 15)
  let score := temp_score score (d.temp ≠ -127) |d.temp - d.target_temp|
  max 0 (min 100 (pyint score))

/-- The WQI as the specification words it: 100 minus four independent
penalties, the result clamped to 0..100 and then truncated to an integer.
Written from the claim text for comparison with calculate_wqi. -/
def wqi_spec (d : SampleData) : ℤ :=
  let ph_penalty : ℚ := if 0 < d.ph then min (|d.ph - 7| * 15) 30 else 0
  let tds_penalty : ℚ := if 500 < d.tds then 30
    else if 300 < d.tds then ((d.tds : ℚ) - 300) / 200 * 20 else 0
  let ntu_penalty : ℚ := if 30 < d.turbidity then 25
    else if 10 < d.turbidity then ((d.turbidity : ℚ) - 10) / 20 * 15 else 0
  let temp_penalty : ℚ := if d.temp ≠ -127 then
      (if 2 < |d.temp - d.target_temp| then 15
       else if 1 < |d.temp - d.target_temp| then 5 else 0)
    else 0
  pyint (max 0 (min 100 (100 - ph_penalty - tds_penalty - ntu_penalty - temp_penalty)))

/-! Settings update endpoint, main.py lines 413 to 450. -/

/-- A field of a settings request body: absent, a value that float()/int()
accepts, or a value on which the conversion raises. -/
inductive FieldVal where
  | absent
  | ok (q : ℚ)
  | bad
deriving DecidableEq

/-- The mutable cells touched by update_settings: the SETTINGS cache, the
corresponding current_data entries, and the persisted database rows. -/
structure SettingsState where
  settings_target : ℚ
  settings_volume : ℤ
  cur_target : ℚ
  cur_volume : ℤ
  db_target : ℚ
  db_volume : ℤ
deriving DecidableEq

/-- The JSON payload returned by update_settings. -/
inductive SettingsResp where
  | ok (target : ℚ) (volume : ℤ)
  | error
deriving DecidableEq

/-- Effect of the target_temp block, main.py lines 420 to 425: none when the
conversion raises (caught by the surrounding try). -/
def apply_target (st : SettingsState) : FieldVal → Option SettingsState
  | FieldVal.absent => some st
  | FieldVal.ok q => some { st with settings_target := q, cur_target := q, db_target := q }
  | FieldVal.bad => none

/-- Effect of the tank_volume block, main.py lines 428 to 433, flooring the
converted value at 1. -/
def apply_volume (st : SettingsState) : FieldVal → Option SettingsState
  | FieldVal.absent => some st
  | FieldVal.ok q => some { st with
      settings_volume := max 1 (pyint q)
      cur_volume := max 1 (pyint q)
      db_volume := max 1 (pyint q) }
  | FieldVal.bad => none

/-- update_settings, main.py lines 413 to 450: the target_temp block runs
first, the tank_volume block second, and an exception anywhere jumps to the
except clause, which returns the error payload and undoes nothing. -/
def update_settings (st : SettingsState) (target_field volume_field : FieldVal) :
    SettingsState × SettingsResp :=
  match apply_target st target_field with
  | none => (st, SettingsResp.error)
  | some st1 =>
    match apply_volume st1 volume_field with
    | none => (st1, SettingsResp.error)
    | some st2 => (st2, SettingsResp.ok st2.settings_target st2.settings_volume)

/-! Maintenance prediction, main.py lines 311 to 352. -/

/-- One record of the history deque, main.py lines 545 to 551. -/
structure HistoryEntry where
  timestamp : ℚ
  temp : ℚ := 24
  tds : ℤ := 0
  ntu : ℤ := 5
  ph : ℚ := 7
deriving DecidableEq

/-- The qualifying (timestamp, tds) pairs used by the regression, main.py
line 320. -/
def qual (hist : List HistoryEntry) : List (ℚ × ℚ) :=
  (hist.filter (fun h => 0 < h.tds)).map (fun h => (h.timestamp, (h.tds : ℚ)))

def sum_x (td : List (ℚ × ℚ)) : ℚ := (td.map (fun t => t.1)).sum

def sum_y (td : List (ℚ × ℚ)) : ℚ := (td.map (fun t => t.2)).sum

def sum_xy (td : List (ℚ × ℚ)) : ℚ := (td.map (fun t => t.1 * t.2)).sum

def sum_xx (td : List (ℚ × ℚ)) : ℚ := (td.map (fun t => t.1 * t.1)).sum

/-- The regression divisor n * sum_xx - sum_x * sum_x, main.py line 332. -/
def reg_denominator (td : List (ℚ × ℚ)) : ℚ :=
  (td.length : ℚ) * sum_xx td - sum_x td * sum_x td

/-- The fitted least-squares slope, main.py line 337. -/
def reg_slope (td : List (ℚ × ℚ)) : ℚ :=
  ((td.length : ℚ) * sum_xy td - sum_x td * sum_y td) / reg_denominator td

/-- predict_tds_maintenance, main.py lines 311 to 352, with the inline sums
of the source factored through the named helpers above. -/
def predict_tds_maintenance (hist : List HistoryEntry) (current_tds limit : ℤ) : Option ℤ :=
  if hist.length < 10 then none
  else
    let td := qual hist
    if td.length < 10 then none
    else if reg_denominator td = 0 then none
    else
      let slope := reg_slope td
      if slope ≤ 0 then none
      else if limit ≤ current_tds then some 0
      else
        let days_to_limit := ((limit : ℚ) - (current_tds : ℚ)) / slope / 86400
        if 365 < days_to_limit then none
        else some (max 1 (pyint days_to_limit))

/-- The maintenance projection as the amended claim words it: no projection
below 10 qualifying points or for a non-positive slope (a degenerate divisor
makes the slope quotient 0), day 0 when the current TDS is at or above the
limit, no projection beyond 365 days, else max 1 (floor days).  Written for
comparison with predict_tds_maintenance. -/
def maintenance_spec (hist : List HistoryEntry) (current_tds limit : ℤ) : Option ℤ :=
  let td := qual hist
  if td.length < 10 then none
  else
    let slope := reg_slope td
    if slope ≤ 0 then none
    else if limit ≤ current_tds then some 0
    else
      let days := ((limit : ℚ) - (current_tds : ℚ)) / slope / 86400
      if 365 < days then none
      else some (max 1 (pyint days))

/-- TDS conversion as the specification words it, with the temperature
compensation factor k = 1 + 0.02 * (temp_for_comp - 25).  Written from the
claim text for comparison with tds_conv. -/
def tds_conversion_spec (raw temp_for_comp : ℚ) : ℤ :=
  let voltage := raw / 4095 * (33/10)
  let compensation := 1 + 2/100 * (temp_for_comp - 25)
  max 0 (min 1000 (if voltage < 1/100 then 0
    else pyint ((13342/100 * voltage ^ 3 - 25586/100 * voltage ^ 2
                 + 85739/100 * voltage) * compensation)))

/-! Theorems. -/

/-- C1 counterexample: with target 24.0 the temperature 23.8 lies inside the
claimed hysteresis band [target - H, target], yet the code turns the heater
on (from a previous off state) instead of leaving it unchanged. -/
theorem thermostat_in_band_changes_state :
  (24 - HYSTERESIS ≤ (238/10 : ℚ) ∧ (238/10 : ℚ) ≤ 24) ∧
  thermostat false (238/10) 24 = true := by
  norm_num [thermostat, HYSTERESIS]

/-- C1 amended: the thermostat is a plain threshold with no dead band: for
every non-sentinel temperature the heater command becomes true exactly when
t < T and false exactly when t is at or above T, so the sequence 23.0, 24.5,
23.8 with target 24.0 yields true, false, true. -/
theorem thermostat_is_plain_threshold :
  (∀ (h : Bool) (t T : ℚ), t ≠ -127 →
    ((thermostat h t T = true ↔ t < T) ∧ (thermostat h t T = false ↔ T ≤ t))) ∧
  thermostat false 23 24 = true ∧
  thermostat true (49/2) 24 = false ∧
  thermostat false (238/10) 24 = true := by
  refine ⟨?_, by norm_num [thermostat], by norm_num [thermostat], by norm_num [thermostat]⟩
  intro h t T ht
  simp only [thermostat, if_pos ht]
  rcases lt_or_le t T with hlt | hle
  · rw [if_pos hlt]
    exact ⟨by simp [hlt], by simp [hlt, not_le.mpr hlt]⟩
  · rw [if_neg (not_lt.mpr hle)]
    exact ⟨by simp [not_lt.mpr hle], by simp [hle]⟩

/-- C1 witness: the general threshold characterization applied at the first
input of the example sequence. -/
theorem thermostat_is_plain_threshold_witness : thermostat false 23 24 = true :=
  (thermostat_is_plain_threshold.1 false 23 24 (by norm_num)).1.mpr (by norm_num)

/-- C2 counterexample: a request with a valid target_temp 25 and an invalid
tank_volume returns the error payload, yet the state is not left as it was:
the new target temperature has already been written through. -/
theorem update_settings_mutates_before_error :
  (update_settings ⟨24, 50, 24, 50, 24, 50⟩ (FieldVal.ok 25) FieldVal.bad).2
      = SettingsResp.error ∧
  (update_settings ⟨24, 50, 24, 50, 24, 50⟩ (FieldVal.ok 25) FieldVal.bad).1
      ≠ ⟨24, 50, 24, 50, 24, 50⟩ ∧
  (update_settings ⟨24, 50, 24, 50, 24, 50⟩ (FieldVal.ok 25) FieldVal.bad).1.settings_target
      = 25 := by
  refine ⟨rfl, ?_, rfl⟩
  intro h
  have h25 : (25 : ℚ) = 24 := congrArg SettingsState.settings_target h
  norm_num at h25

/-- C2 amended: an invalid field always produces the error payload, but only
the fields processed after the failing one are left untouched: an invalid
target_temp (processed first) leaves the whole state unchanged, while an
invalid tank_volume preceded by a valid target_temp leaves the target
mutation in place. -/
theorem update_settings_error_behavior :
  (∀ (st : SettingsState) (f : FieldVal),
    update_settings st FieldVal.bad f = (st, SettingsResp.error)) ∧
  (∀ (st : SettingsState) (q : ℚ),
    update_settings st (FieldVal.ok q) FieldVal.bad
      = ({ st with settings_target := q, cur_target := q, db_target := q },
         SettingsResp.error)) ∧
  (∀ st : SettingsState,
    update_settings st FieldVal.absent FieldVal.bad = (st, SettingsResp.error)) :=
  ⟨fun _ _ => rfl, fun _ _ => rfl, fun _ => rfl⟩

/-- C3 counterexample: an ingest payload with water_level 150 stores
water_level 150, outside the claimed 0..100 range; no clamp is applied. -/
theorem water_level_not_clamped :
  (ingestSample { water_level := 150 } 24).water_level = 150 ∧
  ¬ ((ingestSample { water_level := 150 } 24).water_level ≤ 100) := by
  constructor
  · rfl
  · show ¬ ((150 : ℚ) ≤ 100)
    norm_num

/-- C3 amended: after every ingest the stored tds lies in 0..1000 and the
stored turbidity in 0..500, but water_level is stored exactly as supplied in
the payload, without clamping. -/
theorem ingest_clamp_behavior :
  ∀ (p : Payload) (T : ℚ),
    (0 ≤ (ingestSample p T).tds ∧ (ingestSample p T).tds ≤ 1000) ∧
    (0 ≤ (ingestSample p T).turbidity ∧ (ingestSample p T).turbidity ≤ 500) ∧
    (ingestSample p T).water_level = p.water_level := by
  intro p T
  exact ⟨⟨le_max_left _ _, max_le (by norm_num) (min_le_left _ _)⟩,
         ⟨le_max_left _ _, max_le (by norm_num) (min_le_left _ _)⟩, rfl⟩

/-- C4 counterexample: with raw TDS code 500 (voltage well above 0.01) and a
connected temperature of 30 degrees, the stored TDS equals the value for 25
degrees (no compensation is applied), and it differs from the value the
claimed factor k = 1.1 would produce. -/
theorem tds_no_compensation_at_30C :
  (ingestSample { temp := 30, tds := 500 } 24).tds
      = (ingestSample { temp := 25, tds := 500 } 24).tds ∧
  tds_conversion_spec 500 30 ≠ (ingestSample { temp := 30, tds := 500 } 24).tds := by
  constructor
  · rfl
  · show tds_conversion_spec 500 30 ≠ tds_conv 500
    have h1 : tds_conv 500 = 312 := by
      unfold tds_conv
      norm_num [pyint]
    have h2 : tds_conversion_spec 500 30 = 343 := by
      unfold tds_conversion_spec
      norm_num [pyint]
    rw [h1, h2]
    norm_num

/-- C4 amended: the TDS conversion applies no temperature compensation: the
stored value is independent of the temperature field and always equals the
specification formula evaluated with factor k = 1, that is at 25 degrees. -/
theorem tds_conversion_uncompensated :
  ∀ (p : Payload) (T t t' : ℚ),
    (ingestSample { p with temp := t } T).tds
        = (ingestSample { p with temp := t' } T).tds ∧
    (ingestSample p T).tds = tds_conversion_spec p.tds 25 := by
  intro p T t t'
  constructor
  · rfl
  · show tds_conv p.tds = tds_conversion_spec p.tds 25
    unfold tds_conv tds_conversion_spec
    norm_num

/-- C5: for every raw sensor code in 0..4095 the pH conversion lands in
0..14, the TDS conversion in its clamp range 0..1000 and the turbidity
conversion in its clamp range 0..500; the conversions are pure functions, so
no output leaves its declared range. -/
theorem conversion_range_guarantee (raw : ℚ) (h0 : 0 ≤ raw) (h1 : raw ≤ 4095) :
  (0 ≤ ph_conv raw ∧ ph_conv raw ≤ 14) ∧
  (0 ≤ tds_conv raw ∧ tds_conv raw ≤ 1000) ∧
  (0 ≤ turb_conv raw ∧ turb_conv raw ≤ 500) := by
  refine ⟨⟨?_, ?_⟩,
    ⟨le_max_left _ _, max_le (by norm_num) (min_le_left _ _)⟩,
    ⟨le_max_left _ _, max_le (by norm_num) (min_le_left _ _)⟩⟩
  · unfold ph_conv
    apply pyRound1_nonneg
    linarith
  · unfold ph_conv
    have h14 : (14 : ℚ) - raw / 4095 * 14 ≤ ((14 : ℤ) : ℚ) := by push_cast; linarith
    have := pyRound1_le (14 - raw / 4095 * 14) 14 h14
    simpa using this

/-- C5 witness: the range guarantee evaluated at the raw code 0. -/
theorem conversion_range_guarantee_witness :
  (0 : ℚ) ≤ 0 ∧ (0 : ℚ) ≤ 4095 ∧
  ((0 ≤ ph_conv 0 ∧ ph_conv 0 ≤ 14) ∧
   (0 ≤ tds_conv 0 ∧ tds_conv 0 ≤ 1000) ∧
   (0 ≤ turb_conv 0 ∧ turb_conv 0 ≤ 500)) :=
  ⟨by norm_num, by norm_num, conversion_range_guarantee 0 (by norm_num) (by norm_num)⟩

/-- A sample with nominal ph, turbidity, tds and water level, used for the
temperature examples of the health claim. -/
def healthSample (t T : ℚ) : SampleData := ⟨t, 7, 5, 200, 80, T⟩

/-- C6: check_health is a pure evaluator whose alerts hold exactly under the
claimed conditions: temperature alert iff disconnected or more than the
alarm tolerance away from target, ph alert iff outside PH_MIN..PH_MAX,
turbidity, tds and water level alerts at their limits, and the global alert
is the disjunction of the five; with target 24.0, temp 26.0 alarms, temp
25.0 does not, and the sentinel -127 alarms for every target. -/
theorem check_health_characterization :
  (∀ d : SampleData,
    ((check_health d).temp_alert = true ↔
      (d.temp = -127 ∨ ALARM_TOLERANCE < |d.temp - d.target_temp|)) ∧
    ((check_health d).ph_alert = true ↔ ¬ (PH_MIN ≤ d.ph ∧ d.ph ≤ PH_MAX)) ∧
    ((check_health d).turbidity_alert = true ↔ TURBIDITY_LIMIT < d.turbidity) ∧
    ((check_health d).tds_alert = true ↔ TDS_LIMIT < d.tds) ∧
    ((check_health d).water_level_alert = true ↔ d.water_level < WATER_LEVEL_MIN) ∧
    (check_health d).global_alert =
      ((check_health d).temp_alert || (check_health d).ph_alert ||
       (check_health d).turbidity_alert || (check_health d).tds_alert ||
       (check_health d).water_level_alert)) ∧
  (check_health (healthSample 26 24)).temp_alert = true ∧
  (check_health (healthSample 25 24)).temp_alert = false ∧
  (∀ T : ℚ, (check_health (healthSample (-127) T)).temp_alert = true) := by
  refine ⟨?_, ?_, ?_, ?_⟩
  · intro d
    have hph : (check_health d).ph_alert = true ↔ ¬ (PH_MIN ≤ d.ph ∧ d.ph ≤ PH_MAX) := by
      simp [check_health]
      constructor
      · rintro (h | h) hle
        · linarith
        · exact h
      · intro h
        rcases le_or_lt PH_MIN d.ph with hge | hlt
        · exact Or.inr (h hge)
        · exact Or.inl hlt
    refine ⟨?_, hph, by simp [check_health],
      by simp [check_health], by simp [check_health], rfl⟩
    by_cases ht : d.temp = -127
    · simp [check_health, ht]
    · simp only [check_health, if_pos ht, Bool.or_eq_true, decide_eq_true_iff, ht,
        false_or]
      rw [lt_abs]
      constructor
      · rintro (h | h)
        · exact Or.inr (by linarith)
        · exact Or.inl (by linarith)
      · rintro (h | h)
        · exact Or.inr (by linarith)
        · exact Or.inl (by linarith)
  · norm_num [check_health, healthSample, ALARM_TOLERANCE]
  · norm_num [check_health, healthSample, ALARM_TOLERANCE]
  · intro T
    norm_num [check_health, healthSample]

theorem advice_step_eq (l : List AdviceEntry) (c : Prop) [Decidable c] (e : AdviceEntry) :
    advice_step l c e = l ++ (if c then [e] else []) := by
  unfold advice_step
  split_ifs <;> simp

set_option maxHeartbeats 1000000 in
/-- C7: the advisor output equals the concatenation, in the fixed priority
order, of one entry per triggering condition, with exactly one ok entry when
none triggers; a sample triggering exactly the tds and turbidity conditions
yields the two entries in order, and a nominal sample yields the ok entry. -/
theorem generate_advice_ordering :
  (∀ (d : SampleData) (volume : ℤ), generate_advice d volume = advice_spec d volume) ∧
  generate_advice ⟨24, 7, 50, 600, 80, 24⟩ 50
      = [⟨AdviceKind.tds_high, Severity.danger⟩,
         ⟨AdviceKind.turbidity_high, Severity.warning⟩] ∧
  generate_advice ⟨24, 7, 5, 200, 80, 24⟩ 50 = [⟨AdviceKind.all_ok, Severity.ok⟩] := by
  refine ⟨?_, ?_, ?_⟩
  · intro d volume
    simp only [generate_advice, advice_spec, advice_step_eq, List.nil_append,
      List.append_assoc, List.length_eq_zero]
    generalize (if TDS_LIMIT < d.tds
      then [(⟨AdviceKind.tds_high, Severity.danger⟩ : AdviceEntry)] else []) = B1
    generalize (if TURBIDITY_LIMIT < d.turbidity
      then [(⟨AdviceKind.turbidity_high, Severity.warning⟩ : AdviceEntry)] else []) = B2
    generalize (if d.ph < PH_MIN ∧ 0 < d.ph
      then [(⟨AdviceKind.ph_low, Severity.warning⟩ : AdviceEntry)] else []) = B3
    generalize (if PH_MAX < d.ph
      then [(⟨AdviceKind.ph_high, Severity.warning⟩ : AdviceEntry)] else []) = B4
    generalize (if d.temp ≠ -127 ∧ d.temp < d.target_temp - 1
      then [(⟨AdviceKind.temp_low, Severity.warning⟩ : AdviceEntry)] else []) = B5
    generalize (if d.temp ≠ -127 ∧ d.target_temp + 2 < d.temp
      then [(⟨AdviceKind.temp_high, Severity.warning⟩ : AdviceEntry)] else []) = B6
    generalize (if d.water_level < WATER_LEVEL_MIN
      then [(⟨AdviceKind.water_low, Severity.warning⟩ : AdviceEntry)] else []) = B7
    split_ifs with h
    · simp only [List.append_eq_nil] at h
      obtain ⟨h1, h2, h3, h4, h5, h6, h7⟩ := h
      simp [h1, h2, h3, h4, h5, h6, h7]
    · rfl
  · norm_num [generate_advice, advice_step, TDS_LIMIT, TURBIDITY_LIMIT, PH_MIN,
      PH_MAX, WATER_LEVEL_MIN]
  · norm_num [generate_advice, advice_step, TDS_LIMIT, TURBIDITY_LIMIT, PH_MIN,
      PH_MAX, WATER_LEVEL_MIN]

theorem score_sub_eq (s : ℚ) (c : Prop) [Decidable c] (p : ℚ) :
    score_sub s c p = s - (if c then p else 0) := by
  unfold score_sub
  split_ifs <;> ring

theorem score_sub2_eq (s : ℚ) (c1 : Prop) [Decidable c1] (p1 : ℚ)
    (c2 : Prop) [Decidable c2] (p2 : ℚ) :
    score_sub2 s c1 p1 c2 p2 = s - (if c1 then p1 else if c2 then p2 else 0) := by
  unfold score_sub2
  split_ifs <;> ring

theorem temp_score_eq (s : ℚ) (c : Prop) [Decidable c] (dev : ℚ) :
    temp_score s c dev
      = s - (if c then (if 2 < dev then 15 else if 1 < dev then 5 else 0) else 0) := by
  unfold temp_score
  split_ifs <;> ring

set_option maxHeartbeats 1000000 in
/-- C8: the Water Quality Index equals 100 minus the four independent
penalties of the claim, clamped to 0..100 and truncated, hence always an
integer in 0..100; the nominal sample scores 100 and moving only ph to 9.0
scores 70. -/
theorem calculate_wqi_characterization :
  (∀ d : SampleData, calculate_wqi d = wqi_spec d ∧
    0 ≤ calculate_wqi d ∧ calculate_wqi d ≤ 100) ∧
  calculate_wqi ⟨24, 7, 5, 200, 80, 24⟩ = 100 ∧
  calculate_wqi ⟨24, 9, 5, 200, 80, 24⟩ = 70 := by
  refine ⟨?_, ?_, ?_⟩
  · intro d
    refine ⟨?_, le_max_left _ _, max_le (by norm_num) (min_le_left _ _)⟩
    simp only [calculate_wqi, wqi_spec, score_sub_eq, score_sub2_eq, temp_score_eq]
    rw [pyint_clamp]
  · norm_num [calculate_wqi, score_sub, score_sub2, temp_score, pyint,
      min_def, max_def]
  · norm_num [calculate_wqi, score_sub, score_sub2, temp_score, pyint,
      min_def, max_def, abs_of_nonneg]

/-- Ten history entries with strictly increasing TDS, used to reach the
current-at-limit branch of the prediction. -/
def exHist9 : List HistoryEntry :=
  [⟨0, 24, 100, 5, 7⟩, ⟨1, 24, 110, 5, 7⟩, ⟨2, 24, 120, 5, 7⟩, ⟨3, 24, 130, 5, 7⟩,
   ⟨4, 24, 140, 5, 7⟩, ⟨5, 24, 150, 5, 7⟩, ⟨6, 24, 160, 5, 7⟩, ⟨7, 24, 170, 5, 7⟩,
   ⟨8, 24, 180, 5, 7⟩, ⟨9, 24, 190, 5, 7⟩]

/-- C9 counterexample: with ten qualifying points of rising TDS and the
current TDS already at the limit, the function returns 0, not the claimed
no-projection value None. -/
theorem predict_returns_zero_at_limit :
  predict_tds_maintenance exHist9 500 500 = some 0 ∧
  predict_tds_maintenance exHist9 500 500 ≠ none := by
  have h : predict_tds_maintenance exHist9 500 500 = some 0 := by
    norm_num [predict_tds_maintenance, exHist9, qual, reg_denominator, reg_slope,
      sum_x, sum_y, sum_xy, sum_xx, List.filter]
  rw [h]
  exact ⟨rfl, by simp⟩

/-- C9 amended: the prediction reports None below 10 qualifying points, for
a non-positive fitted slope (a zero regression divisor also yields None, the
slope quotient being treated as 0), and beyond a 365-day horizon; when the
current TDS is already at or above the limit with a positive slope it
reports day 0, and otherwise max 1 (floor days). -/
theorem predict_tds_maintenance_spec_eq :
  ∀ (hist : List HistoryEntry) (current_tds limit : ℤ),
    predict_tds_maintenance hist current_tds limit
      = maintenance_spec hist current_tds limit := by
  intro hist cur lim
  have hlen : (qual hist).length ≤ hist.length := by
    simpa [qual] using List.length_filter_le (fun h => decide (0 < h.tds)) hist
  simp only [predict_tds_maintenance, maintenance_spec]
  by_cases h1 : hist.length < 10
  · have h2 : (qual hist).length < 10 := lt_of_le_of_lt hlen h1
    simp [h1, h2]
  · simp only [if_neg h1]
    by_cases h2 : (qual hist).length < 10
    · simp [h2]
    · simp only [if_neg h2]
      by_cases h3 : reg_denominator (qual hist) = 0
      · have hs : reg_slope (qual hist) = 0 := by
          unfold reg_slope
          rw [h3, div_zero]
        simp [h3, hs]
      · simp [h3]

theorem sum_all_eq (l : List ℚ) (c : ℚ) (h : ∀ x ∈ l, x = c) :
    l.sum = l.length * c := by
  induction l with
  | nil => simp
  | cons a t ih =>
    have ha : a = c := h a (by simp)
    have ht : ∀ x ∈ t, x = c := fun x hx => h x (by simp [hx])
    rw [List.sum_cons, ha, ih ht, List.length_cons]
    push_cast
    ring

theorem qual_fst_eq (hist : List HistoryEntry) (t0 : ℚ)
    (h : ∀ e ∈ hist, 0 < e.tds → e.timestamp = t0) :
    ∀ x ∈ qual hist, x.1 = t0 := by
  intro x hx
  simp only [qual, List.mem_map, List.mem_filter] at hx
  obtain ⟨e, ⟨he, htds⟩, rfl⟩ := hx
  exact h e he (by simpa using htds)

/-- C10: when every qualifying history entry carries the same timestamp the
regression divisor n * sum of squares minus square of sum is exactly zero,
and predict_tds_maintenance returns None through the divisor guard instead
of dividing, so the slope division is never reached. -/
theorem predict_degenerate_timestamps_none
    (hist : List HistoryEntry) (current_tds limit : ℤ) (t0 : ℚ)
    (h : ∀ e ∈ hist, 0 < e.tds → e.timestamp = t0) :
    reg_denominator (qual hist) = 0 ∧
    predict_tds_maintenance hist current_tds limit = none := by
  have hfst := qual_fst_eq hist t0 h
  have hden : reg_denominator (qual hist) = 0 := by
    unfold reg_denominator sum_x sum_xx
    have h1 : ∀ x ∈ (qual hist).map (fun t => t.1), x = t0 := by
      intro x hx
      simp only [List.mem_map] at hx
      obtain ⟨p, hp, rfl⟩ := hx
      exact hfst p hp
    have h2 : ∀ x ∈ (qual hist).map (fun t => t.1 * t.1), x = t0 * t0 := by
      intro x hx
      simp only [List.mem_map] at hx
      obtain ⟨p, hp, rfl⟩ := hx
      rw [hfst p hp]
    rw [sum_all_eq _ _ h1, sum_all_eq _ _ h2]
    simp only [List.length_map]
    ring
  refine ⟨hden, ?_⟩
  simp only [predict_tds_maintenance]
  by_cases h1 : hist.length < 10
  · simp [h1]
  · simp only [if_neg h1]
    by_cases h2 : (qual hist).length < 10
    · simp [h2]
    · simp [h2, hden]

/-- Ten identical history entries sharing one timestamp. -/
def wHist10 : List HistoryEntry := List.replicate 10 ⟨5, 24, 100, 5, 7⟩

/-- C10 witness: the degenerate-timestamp theorem applied to ten qualifying
entries that all carry timestamp 5. -/
theorem predict_degenerate_timestamps_none_witness :
  (∀ e ∈ wHist10, 0 < e.tds → e.timestamp = 5) ∧
  (reg_denominator (qual wHist10) = 0 ∧
   predict_tds_maintenance wHist10 100 500 = none) := by
  have hyp : ∀ e ∈ wHist10, 0 < e.tds → e.timestamp = 5 := by
    intro e he _
    rw [List.eq_of_mem_replicate he]
  exact ⟨hyp, predict_degenerate_timestamps_none wHist10 100 500 5 hyp⟩

end Akvarko
